import Mathlib

/-!
Verification development for the RPU benefit-projection pipeline.

Shallow embedding of the extraction and calculation core:
  * `core/date_logic.py`  — mode normalization, RCD backward recurrence, grace addition
  * `core/pdf_reader.py`  — selective table extraction and BI-date recognition
  * `products/gis.py`     — field/schedule extraction and the RPU benefit calculation

Python `datetime.date` values are modelled as year/month/day triples of naturals
with proleptic-Gregorian month lengths; `dateutil.relativedelta` month stepping
is modelled with day-of-month clamping exactly as the library performs it.
Python floats carrying currency amounts are modelled as exact rationals; the
formulas of the source are preserved verbatim over ℚ.

The helper `derive_rcd_and_rpu_dates`, imported by `products/gis.py` from
`core/date_logic.py`, is not present in the available source tree; it is
modelled from the specification (§4.4) and marked as such below.
-/

/-! ### String helpers (`products/gis.py` helpers) -/

/-- Leading-segment test: the first list starts the second. -/
def leadsList : List Char → List Char → Bool
  | [], _ => true
  | _ :: _, [] => false
  | a :: as, b :: bs => a = b && leadsList as bs

/-- Sub-list containment test (used for Python's `in` on strings). -/
def isSubList : List Char → List Char → Bool
  | [], _ => true
  | needle, [] => needle.isEmpty
  | needle, c :: cs => leadsList needle (c :: cs) || isSubList needle cs

/-- Python `needle in hay` for strings. -/
def containsSub (needle hay : String) : Bool :=
  isSubList needle.data hay.data

/-- Python whitespace characters recognized by `str.split()`. -/
def isPyWs (c : Char) : Bool :=
  c = ' ' || c = '\t' || c = '\n' || c = '\r' || c = '\x0b' || c = '\x0c'

/-- Lowercase a string character-wise (Python `str.lower()` on the BI text). -/
def pyLower (s : String) : String :=
  String.mk (s.data.map Char.toLower)

/-- Uppercase a string character-wise (Python `str.upper()`). -/
def pyUpper (s : String) : String :=
  String.mk (s.data.map Char.toUpper)

/-- Python `str.strip()`: drop leading and trailing whitespace. -/
def pyStrip (s : String) : String :=
  String.mk (((s.data.dropWhile (fun c => isPyWs c)).reverse.dropWhile
    (fun c => isPyWs c)).reverse)

/-- Whitespace word splitting, Python `str.split()` with no argument. -/
def splitWsGo (cur : List Char) : List Char → List (List Char)
  | [] => if cur.isEmpty then [] else [cur.reverse]
  | c :: cs =>
    if isPyWs c then
      (if cur.isEmpty then splitWsGo [] cs else cur.reverse :: splitWsGo [] cs)
    else splitWsGo (c :: cur) cs

/-- Python `str.split()` with no argument. -/
def pySplitWs (cs : List Char) : List (List Char) :=
  splitWsGo [] cs

/-- Source `_clean_text`: collapse all whitespace runs to single spaces and trim. -/
def clean_text (s : String) : String :=
  " ".intercalate ((pySplitWs s.data).map String.mk)

/-- One step of Python `str.replace(" :", ":")`. -/
def replaceSpaceColon : List Char → List Char
  | [] => []
  | ' ' :: ':' :: rest => ':' :: replaceSpaceColon rest
  | c :: rest => c :: replaceSpaceColon rest

/-- Source `_norm_key`: clean, fuse `" :"`, strip one trailing colon, clean, lowercase. -/
def norm_key (s : String) : String :=
  let s1 := clean_text s
  let cs2 := replaceSpaceColon s1.data
  let cs3 := if cs2.getLast? = some ':' then cs2.dropLast else cs2
  pyLower (clean_text (String.mk cs3))

/-- Digits of a numeral read left to right. -/
def digitsToNat (cs : List Char) : Nat :=
  cs.foldl (fun n c => n * 10 + (c.toNat - 48)) 0

/-- First maximal run of decimal digits, as Python `re.search(r"\d+", s)` finds it. -/
def firstDigitRun : List Char → Option Nat
  | [] => none
  | c :: cs =>
    if c.isDigit then some (digitsToNat (c :: cs.takeWhile (fun d => d.isDigit)))
    else firstDigitRun cs

/-- Source `_to_int`: clean the text, drop commas, parse the first digit run. -/
def to_int (text : String) : Option Nat :=
  let s := clean_text text
  if s = "" then none
  else firstDigitRun (s.data.filter (fun c => c ≠ ','))

/-- Unsigned decimal parser: digit run, optional point and fraction digits.
Mirrors Python `float` acceptance on the cell contents that occur in BI tables. -/
def parseUnsigned (cs : List Char) : Option ℚ :=
  let intPart := cs.takeWhile (fun c => c.isDigit)
  let rest := cs.dropWhile (fun c => c.isDigit)
  match rest with
  | [] => if intPart = [] then none else some ((digitsToNat intPart : ℕ) : ℚ)
  | '.' :: frac =>
    if frac.all (fun c => c.isDigit) ∧ (intPart ≠ [] ∨ frac ≠ []) then
      some (((digitsToNat intPart : ℕ) : ℚ) +
        ((digitsToNat frac : ℕ) : ℚ) / ((10 : ℚ) ^ frac.length))
    else none
  | _ => none

/-- Signed decimal parser, Python `float(s)` on stripped text. -/
def parseSigned : List Char → Option ℚ
  | '-' :: rest => (parseUnsigned rest).map (fun q => -q)
  | '+' :: rest => parseUnsigned rest
  | cs => parseUnsigned cs

/-- Source `_to_number`: clean, reject placeholder cells, drop commas and the
rupee sign, then parse as a float. -/
def to_number (text : String) : Option ℚ :=
  let s := clean_text text
  if s = "" ∨ s = "-" ∨ s = "—" then none
  else
    let stripped := s.data.filter (fun c => c ≠ ',' ∧ c ≠ '₹')
    parseSigned ((stripped.dropWhile (fun c => isPyWs c)).reverse.dropWhile
      (fun c => isPyWs c) |>.reverse)

/-- Source `_header_key`: ordered keyword classification of a merged header cell. -/
def header_key (h : String) : String :=
  let t := pyLower (clean_text h)
  if containsSub "policy year" t then "policy_year"
  else if containsSub "income" t || containsSub "survival" t ||
      containsSub "loyalty addition" t then "income"
  else if containsSub "maturity" t || containsSub "lump sum" t ||
      containsSub "lumpsum" t then "maturity"
  else if containsSub "death" t then "death"
  else ""

/-- Python `str.title()` on ASCII text: uppercase a letter that does not follow
a letter, lowercase one that does. -/
def titleCaseGo : Bool → List Char → List Char
  | _, [] => []
  | prevAlpha, c :: cs =>
    (if c.isAlpha then (if prevAlpha then c.toLower else c.toUpper) else c)
      :: titleCaseGo c.isAlpha cs

/-- Python `str.title()`. -/
def titleCase (s : String) : String :=
  String.mk (titleCaseGo false s.data)

/-- Python truthiness-based `a or b` on optional strings (empty string is falsy). -/
def pyOr (a b : Option String) : Option String :=
  match a with
  | some s => if s = "" then b else some s
  | none => b

/-- Python `a or dflt` producing a string default. -/
def pyOrD (a : Option String) (dflt : String) : String :=
  match a with
  | some s => if s = "" then dflt else s
  | none => dflt

/-- Python `s or None`: an empty string becomes `None`. -/
def strOrNone (s : String) : Option String :=
  if s = "" then none else some s

/-! ### Calendar dates (`datetime.date` and `dateutil.relativedelta` arithmetic) -/

/-- A calendar date, mirroring Python `datetime.date` fields. -/
structure Date where
  year : Nat
  month : Nat
  day : Nat
deriving DecidableEq, Repr

/-- Proleptic Gregorian leap-year rule. -/
def isLeap (y : Nat) : Bool :=
  y % 4 = 0 && (y % 100 ≠ 0 || y % 400 = 0)

/-- Number of days in a month. -/
def daysInMonth (y m : Nat) : Nat :=
  if m = 2 then (if isLeap y then 29 else 28)
  else if m = 4 ∨ m = 6 ∨ m = 9 ∨ m = 11 then 30
  else 31

/-- Order key packing (year, month, day) lexicographically; faithful to Python
date comparison for months below 16 and days below 32. -/
def Date.key (d : Date) : Nat :=
  d.year * 512 + d.month * 32 + d.day

/-- Python `d1 <= d2`. -/
def Date.le (a b : Date) : Prop := a.key ≤ b.key

/-- Python `d1 < d2`. -/
def Date.lt (a b : Date) : Prop := a.key < b.key

instance (a b : Date) : Decidable (Date.le a b) :=
  inferInstanceAs (Decidable (a.key ≤ b.key))

instance (a b : Date) : Decidable (Date.lt a b) :=
  inferInstanceAs (Decidable (a.key < b.key))

/-- A structurally valid Python date (month and day in range). -/
def ValidDate (d : Date) : Prop :=
  1 ≤ d.year ∧ 1 ≤ d.month ∧ d.month ≤ 12 ∧ 1 ≤ d.day ∧ d.day ≤ daysInMonth d.year d.month

instance (d : Date) : Decidable (ValidDate d) :=
  inferInstanceAs (Decidable (_ ∧ _ ∧ _ ∧ _ ∧ _))

/-- Zero-based month counter used by `relativedelta` month arithmetic. -/
def monthIndex (d : Date) : Nat :=
  d.year * 12 + (d.month - 1)

/-- Rebuild a date at a given zero-based month counter, clamping the day of
month exactly as `dateutil.relativedelta` does. -/
def shiftToMI (d : Date) (tm : Nat) : Date :=
  let y := tm / 12
  let m := tm % 12 + 1
  { year := y, month := m, day := min d.day (daysInMonth y m) }

/-- Python `d - relativedelta(months=k)`. -/
def subMonths (d : Date) (k : Nat) : Date :=
  shiftToMI d (monthIndex d - k)

/-- Python `d + relativedelta(months=k)`. -/
def addMonths (d : Date) (k : Nat) : Date :=
  shiftToMI d (monthIndex d + k)

/-- Successor day in the Gregorian calendar. -/
def Date.nextDay (d : Date) : Date :=
  if d.day < daysInMonth d.year d.month then { d with day := d.day + 1 }
  else if d.month < 12 then { year := d.year, month := d.month + 1, day := 1 }
  else { year := d.year + 1, month := 1, day := 1 }

/-- Python `d + timedelta(days=n)`: plain calendar-day addition. -/
def addDays : Date → Nat → Date
  | d, 0 => d
  | d, n + 1 => addDays d.nextDay n

/-! ### `core/date_logic.py` -/

/-- Source `MODE_TO_MONTHS.get(key, 12)` over the uppercased key. -/
def mode_months_key (key : String) : Nat :=
  if key = "ANNUAL" then 12
  else if key = "YEARLY" then 12
  else if key = "HALF-YEARLY" then 6
  else if key = "HALF YEARLY" then 6
  else if key = "SEMI-ANNUAL" then 6
  else if key = "SEMI ANNUAL" then 6
  else if key = "QUARTERLY" then 3
  else if key = "MONTHLY" then 1
  else 12

/-- Source `mode_months`: strip, uppercase, table lookup defaulting to 12. -/
def mode_months (mode_norm : String) : Nat :=
  mode_months_key (pyUpper (pyStrip mode_norm))

/-- Source `normalize_mode`: keyword normalization of a payment-mode string. -/
def normalize_mode (mode_raw : String) : String :=
  let m := pyUpper (pyStrip mode_raw)
  if containsSub "ANNU" m || containsSub "YEAR" m then "Annual"
  else if containsSub "HALF" m || containsSub "SEMI" m then "Half-yearly"
  else if containsSub "QUART" m then "Quarterly"
  else if containsSub "MONTH" m then "Monthly"
  else if mode_raw ≠ "" then titleCase (pyStrip mode_raw)
  else "Annual"

/-- Backward-stepping loop of `derive_rcd`; the fuel argument strictly
dominates the number of iterations the Python `while` loop can make. -/
def deriveRcdGo : Nat → Date → Nat → Date → Date
  | 0, _, _, c => c
  | fuel + 1, bi, k, c =>
    if Date.le bi (subMonths c k) then deriveRcdGo fuel bi k (subMonths c k) else c

/-- Source `derive_rcd`: smallest backward-stepped candidate from PTD still at
or after the BI date, with a final forward correction. -/
def derive_rcd (bi_date ptd : Date) (mode_norm : String) : Date :=
  let k := mode_months mode_norm
  let c := deriveRcdGo (monthIndex ptd + 1) bi_date k ptd
  if Date.lt c bi_date then addMonths c k else c

/-- Source `add_grace`: plain day addition of the grace period. -/
def add_grace (ptd : Date) (grace_days : Nat) : Date :=
  addDays ptd grace_days

/-- Modelled from the spec: `derive_rcd_and_rpu_dates` is imported by
`products/gis.py` from `core/date_logic.py` but is absent from the available
source tree.  Per §4.4 of the specification it normalizes the mode, derives
RCD with the backward recurrence, selects a grace period of 15 days for
Monthly mode and 30 days otherwise, and returns the RPU effective date as
PTD plus the grace days. -/
def derive_rcd_and_rpu_dates (bi_date ptd : Date) (mode : String) : Date × Date × Nat :=
  let mode_norm := normalize_mode mode
  let rcd := derive_rcd bi_date ptd mode_norm
  let grace := if mode_norm = "Monthly" then 15 else 30
  (rcd, add_grace ptd grace, grace)

/-! ### `core/pdf_reader.py` -/

/-- A pdfplumber table: rows of optional cell strings. -/
abbrev TableG := List (List (Option String))

/-- Skip a (possibly empty) run of regex `\s` characters. -/
def skipWs (cs : List Char) : List Char :=
  cs.dropWhile (fun c => isPyWs c)

/-- Case-insensitive literal match; returns the remaining input. -/
def matchLit : List Char → List Char → Option (List Char)
  | [], cs => some cs
  | _ :: _, [] => none
  | l :: ls, c :: cs => if l.toLower = c.toLower then matchLit ls cs else none

/-- Match a sequence of literal tokens separated by `\s*`. -/
def matchTokens : List String → List Char → Option (List Char)
  | [], cs => some cs
  | [t], cs => matchLit t.data cs
  | t :: ts, cs =>
    match matchLit t.data cs with
    | some rest => matchTokens ts (skipWs rest)
    | none => none

/-- First-of-two choice on options (regex alternation order). -/
def orO {α : Type} (a b : Option α) : Option α :=
  match a with
  | some x => some x
  | none => b

/-- Date separator class `[/\-.]`. -/
def isDateSep (c : Char) : Bool :=
  c = '/' || c = '-' || c = '.'

/-- Year group `(?:19|20)\d{2}`. -/
def parseYear4 : List Char → Option Nat
  | c1 :: c2 :: c3 :: c4 :: _ =>
    if ((c1 = '1' && c2 = '9') || (c1 = '2' && c2 = '0')) && c3.isDigit && c4.isDigit then
      some (digitsToNat [c1, c2, c3, c4])
    else none
  | _ => none

/-- Separator then year group. -/
def parseSepYear (dd mm : Nat) : List Char → Option (Nat × Nat × Nat)
  | s :: rest => if isDateSep s then (parseYear4 rest).map (fun y => (dd, mm, y)) else none
  | [] => none

/-- Month group `([01]?\d)` (two digits greedily, backtracking to one). -/
def parseMonthYear (dd : Nat) : List Char → Option (Nat × Nat × Nat)
  | c1 :: c2 :: rest =>
    orO
      (if (c1 = '0' || c1 = '1') && c2.isDigit then
        parseSepYear dd (digitsToNat [c1, c2]) rest else none)
      (if c1.isDigit then parseSepYear dd (digitsToNat [c1]) (c2 :: rest) else none)
  | _ => none

/-- Separator then month group. -/
def parseSepMonth (dd : Nat) : List Char → Option (Nat × Nat × Nat)
  | s :: rest => if isDateSep s then parseMonthYear dd rest else none
  | [] => none

/-- Day group `([0-3]?\d)` (two digits greedily, backtracking to one). -/
def parseDayRest : List Char → Option (Nat × Nat × Nat)
  | c1 :: c2 :: rest =>
    orO
      (if ('0' ≤ c1 && c1 ≤ '3') && c2.isDigit then
        parseSepMonth (digitsToNat [c1, c2]) rest else none)
      (if c1.isDigit then parseSepMonth (digitsToNat [c1]) (c2 :: rest) else none)
  | _ => none

/-- Pattern tail `\s*[:\-]?\s*` followed by the day/month/year groups. -/
def afterLabel (cs : List Char) : Option (Nat × Nat × Nat) :=
  let cs1 := skipWs cs
  let cs2 :=
    match cs1 with
    | c :: rest => if c = ':' || c = '-' then rest else cs1
    | [] => cs1
  parseDayRest (skipWs cs2)

/-- One label alternative followed by the date tail. -/
def tryLabel (tokens : List String) (cs : List Char) : Option (Nat × Nat × Nat) :=
  match matchTokens tokens cs with
  | some rest => afterLabel rest
  | none => none

/-- First regex of `extract_bi_generation_date`, tried at one position. -/
def tryPattern1At (cs : List Char) : Option (Nat × Nat × Nat) :=
  orO (tryLabel ["BI", "(Quote)", "Date"] cs)
    (orO (tryLabel ["Quote", "Date"] cs)
      (orO (tryLabel ["Quotation", "Date"] cs)
        (tryLabel ["Date", "of", "Quote"] cs)))

/-- Second regex of `extract_bi_generation_date`, tried at one position. -/
def tryPattern2At (cs : List Char) : Option (Nat × Nat × Nat) :=
  orO (tryLabel ["BI", "Date"] cs)
    (tryLabel ["BI", "Generation", "Date"] cs)

/-- `re.search` semantics: try the pattern at every position, leftmost first. -/
def scanP (p : List Char → Option (Nat × Nat × Nat)) : List Char → Option (Nat × Nat × Nat)
  | [] => p []
  | c :: cs => orO (p (c :: cs)) (scanP p cs)

/-- Python `date(yy, mm, dd)` constructor validity. -/
def validYMD (yy mm dd : Nat) : Bool :=
  decide (1 ≤ mm) && decide (mm ≤ 12) && decide (1 ≤ dd) && decide (dd ≤ daysInMonth yy mm)

/-- Source `extract_bi_generation_date`: newline flattening, two regex passes,
`None` on an invalid matched date. -/
def extract_bi_generation_date (page_text : String) : Option Date :=
  let t := page_text.data.map (fun c => if c = '\n' then ' ' else c)
  match scanP tryPattern1At t with
  | some (dd, mm, yy) => if validYMD yy mm dd then some ⟨yy, mm, dd⟩ else none
  | none =>
    match scanP tryPattern2At t with
    | some (dd, mm, yy) => if validYMD yy mm dd then some ⟨yy, mm, dd⟩ else none
    | none => none

/-- Schedule-marker test of `read_pdf`: `"policy year" in txt.lower()`. -/
def markerHit (txt : String) : Bool :=
  containsSub "policy year" (pyLower txt)

/-- Table-selection pass of source `read_pdf`: tables are taken for page
indices 0 and 1 and for any page whose own lowered text contains the
schedule marker; `tablesOf` stands for what `page.extract_tables()` would
return for each page. -/
def select_tables (texts : List String) (tablesOf : List (List TableG)) : List (List TableG) :=
  (List.range texts.length).map (fun idx =>
    if idx = 0 ∨ idx = 1 ∨ markerHit (texts.getD idx "") then tablesOf.getD idx []
    else [])

/-! ### `core/models.py` and `products/gis.py` extraction -/

/-- Source `ParsedPDF` model. -/
structure ParsedPDF where
  text_by_page : List String
  tables_by_page : List (List TableG)
  page_count : Nat
deriving DecidableEq, Repr

/-- A normalized schedule row: the dictionary built by `_extract_schedule`,
with the four keys `_header_key` can produce. -/
structure SchedRow where
  policy_year : Option Nat := none
  income : Option ℚ := none
  maturity : Option ℚ := none
  death : Option ℚ := none
deriving DecidableEq, Repr

/-- Source `ExtractedFields` model (floats as exact rationals). -/
structure ExtractedFields where
  product_name : String
  product_uin : Option String := none
  bi_generation_date : Date
  proposer_name_transient : Option String := none
  life_assured_age : Option Nat := none
  life_assured_gender : Option String := none
  mode : String
  policy_term_years : Nat
  ppt_years : Nat
  annualized_premium_excl_tax : Option ℚ := none
  income_start_point_text : Option String := none
  income_duration_years : Option Nat := none
  income_payout_frequency : Option String := none
  income_payout_type : Option String := none
  sum_assured_on_death : Option ℚ := none
  schedule_rows : List SchedRow := []
deriving DecidableEq, Repr

/-- Source `_flatten_tables`: all non-empty tables in page order. -/
def flatten_tables (parsed : ParsedPDF) : List TableG :=
  (parsed.tables_by_page.map (fun pts => pts.filter (fun tb => !tb.isEmpty))).flatten

/-- Source `_find_value_in_tables`: first row containing the needle whose
reversed cells yield a number; that last numeric cell is returned. -/
def find_value_in_tables (tables_by_page : List (List TableG)) (row_contains : String) :
    Option ℚ :=
  let needle := pyLower row_contains
  tables_by_page.findSome? (fun page_tables =>
    page_tables.findSome? (fun tb =>
      tb.findSome? (fun row =>
        if row.isEmpty then none
        else
          let row_text :=
            " ".intercalate (row.filterMap (fun c => c.map (fun s => pyLower (clean_text s))))
          if containsSub needle row_text then
            row.reverse.findSome? (fun c => to_number (c.getD ""))
          else none)))

/-- Dictionary write `kv[k] = v` on an association list kept in insertion order. -/
def kvUpsert (kv : List (String × String)) (k v : String) : List (String × String) :=
  if kv.any (fun p => p.1 = k) then kv.map (fun p => if p.1 = k then (k, v) else p)
  else kv ++ [(k, v)]

/-- Key/value harvest of `GISHandler.extract`: every table row with at least
two cells contributes `norm_key(row[0]) -> clean_text(row[1])`, later
occurrences overwriting earlier ones. -/
def buildKV (tables : List TableG) : List (String × String) :=
  tables.foldl (fun kv tb =>
    tb.foldl (fun kv row =>
      match row with
      | c0 :: c1 :: _ =>
        let k := norm_key (c0.getD "")
        if k ≠ "" then kvUpsert kv k (clean_text (c1.getD "")) else kv
      | _ => kv) kv) []

/-- Dictionary read `kv.get(k)`. -/
def kvGet (kv : List (String × String)) (k : String) : Option String :=
  (kv.find? (fun p => p.1 = k)).map (fun p => p.2)

/-- Header search of `_extract_schedule`: first of the first six rows whose
cleaned, space-joined text contains both "policy" and "year". -/
def findHeaderIdx (tb : TableG) : Option Nat :=
  (List.range (min 6 tb.length)).find? (fun i =>
    let txt := pyLower (" ".intercalate ((tb.getD i []).map (fun c => clean_text (c.getD ""))))
    containsSub "policy" txt && containsSub "year" txt)

/-- Header merge of `_extract_schedule`: append the words of the next two
rows' cells at the same column index. -/
def mergeHeaderRow (tb : TableG) (i : Nat) : List String :=
  let base := (tb.getD i []).map (fun c => clean_text (c.getD ""))
  let step := fun (merged : List String) (j : Nat) =>
    if j < tb.length then
      let r2 := tb.getD j []
      merged.mapIdx (fun col m =>
        if col < r2.length then
          let nxt := clean_text ((r2.getD col none).getD "")
          if nxt ≠ "" then (if m = "" then nxt else m ++ " " ++ nxt) else m
        else m)
    else merged
  step (step base (i + 1)) (i + 2)

/-- Data-row conversion of `_extract_schedule`: cells are typed according to
the classified header key of their column, later same-key columns winning. -/
def buildRowObj (keys : List String) (r : List (Option String)) : SchedRow :=
  r.enum.foldl (fun obj ic =>
    let key := keys.getD ic.1 ""
    if key = "policy_year" then { obj with policy_year := to_int (ic.2.getD "") }
    else if key = "income" then { obj with income := to_number (ic.2.getD "") }
    else if key = "maturity" then { obj with maturity := to_number (ic.2.getD "") }
    else if key = "death" then { obj with death := to_number (ic.2.getD "") }
    else obj) {}

/-- Row loop of `_extract_schedule` for one table's data rows; the flag
reports that the policy-term bound was reached (Python `reached_end`). -/
def processRows (keys : List String) (pt : Nat) : List (List (Option String)) →
    (List SchedRow × Bool)
  | [] => ([], false)
  | r :: rest =>
    if r.isEmpty then processRows keys pt rest
    else
      let obj := buildRowObj keys r
      match obj.policy_year with
      | some p =>
        if p ≠ 0 then
          if pt ≠ 0 ∧ pt ≤ p then ([obj], true)
          else
            let out := processRows keys pt rest
            (obj :: out.1, out.2)
        else processRows keys pt rest
      | none => processRows keys pt rest

/-- Table loop of `_extract_schedule`, carrying the last seen header keys. -/
def schedGo (pt : Nat) : List TableG → Option (List String) → List SchedRow
  | [], _ => []
  | tb :: rest, hdrs =>
    if tb.length < 2 then schedGo pt rest hdrs
    else
      match findHeaderIdx tb with
      | some i =>
        let keys := (mergeHeaderRow tb i).map header_key
        let out := processRows keys pt (tb.drop (i + 3))
        if out.2 then out.1 else out.1 ++ schedGo pt rest (some keys)
      | none =>
        match hdrs with
        | some keys =>
          let out := processRows keys pt tb
          if out.2 then out.1 else out.1 ++ schedGo pt rest hdrs
        | none => schedGo pt rest hdrs

/-- Source `GISHandler._extract_schedule`. -/
def extract_schedule (parsed : ParsedPDF) (pt_years : Nat) : List SchedRow :=
  schedGo pt_years (flatten_tables parsed) none

/-- The apostrophe character, used inside source key strings. -/
def apos : String :=
  String.singleton (Char.ofNat 39)

/-- Source `GISHandler.extract`.  The current date enters only through the
fallback for an unparseable BI generation date (`... or date.today()`); it is
made an explicit argument `today` so that run dependence is visible. -/
def gis_extract (parsed : ParsedPDF) (today : Date) : ExtractedFields :=
  let page1 := parsed.text_by_page.getD 0 ""
  let bi_date := (extract_bi_generation_date page1).getD today
  let kv := buildKV (flatten_tables parsed)
  let pt := (to_int (pyOrD (pyOr (kvGet kv "policy term (in years)")
    (kvGet kv "policy term")) "")).getD 0
  { product_name := pyOrD (kvGet kv "name of the product")
      "Edelweiss Tokio Life- Guaranteed Income STAR"
    product_uin := pyOr (kvGet kv "unique identification no.") (kvGet kv "uin")
    bi_generation_date := bi_date
    proposer_name_transient := kvGet kv "name of the prospect/policyholder"
    life_assured_age := to_int (pyOrD (pyOr (kvGet kv "age (years)") (kvGet kv "age")) "")
    life_assured_gender := strOrNone (titleCase (pyOrD
      (pyOr (kvGet kv "gender of the life assured") (kvGet kv "gender")) ""))
    mode := titleCase (pyOrD (kvGet kv "mode of payment of premium") "Annual")
    policy_term_years := pt
    ppt_years := (to_int (pyOrD (pyOr (kvGet kv "premium payment term (in years)")
      (kvGet kv "premium payment term")) "")).getD 0
    annualized_premium_excl_tax :=
      find_value_in_tables parsed.tables_by_page "Instalment Premium without GST"
    income_start_point_text := kvGet kv "income start point"
    income_duration_years := to_int (pyOrD (pyOr (kvGet kv "income duration (in years)")
      (kvGet kv (apos ++ "income duration" ++ apos ++ " (in years)"))) "")
    income_payout_frequency := strOrNone (titleCase
      (pyOrD (kvGet kv "income benefit pay-out frequency") "Annual"))
    income_payout_type := strOrNone (titleCase
      (pyOrD (kvGet kv "income benefit pay-out type") ""))
    sum_assured_on_death := to_number (pyOrD
      (pyOr (pyOr (kvGet kv "sum assured on death (at inception of the policy) rs.")
        (kvGet kv "sum assured on death (at inception of the policy) rs"))
        (kvGet kv "sum assured on death (at inception of the policy)")) "")
    schedule_rows := extract_schedule parsed pt }

/-! ### `products/gis.py` calculation -/

/-- Source `_safe_anniversary`: shift a date by whole years, keeping month and
day when the target date exists, otherwise clamping (Feb 29 to Feb 28, else
to the last valid day of the month). -/
def safe_anniversary (d : Date) (years_to_add : Nat) : Date :=
  let y := d.year + years_to_add
  if d.day ≤ daysInMonth y d.month then { year := y, month := d.month, day := d.day }
  else if d.month = 2 ∧ d.day = 29 then { year := y, month := 2, day := 28 }
  else { year := y, month := d.month, day := daysInMonth y d.month }

/-- Source `_last_non_null`: last row, scanning backward, whose projected
value is present. -/
def last_non_null (rows : List SchedRow) (proj : SchedRow → Option ℚ) : Option ℚ :=
  rows.reverse.findSome? proj

/-- Income event built by `GISHandler.calculate` (a derived intermediate). -/
structure IncomeEvent where
  policy_year : Nat
  calendar_year : Nat
  payout_date : Date
  amount : ℚ
deriving DecidableEq, Repr

/-- Event-construction loop of `GISHandler.calculate`: one event per schedule
row with a positive income amount; the payout date is the RCD anniversary
`policy_year` years later, and the calendar year is `rcd.year + policy_year - 1`. -/
def incomeEventsOf (rows : List SchedRow) (rcd : Date) : List IncomeEvent :=
  rows.filterMap (fun r =>
    match r.policy_year with
    | none => none
    | some py =>
      if 0 < r.income.getD 0 then
        some { policy_year := py
               calendar_year := rcd.year + py - 1
               payout_date := safe_anniversary rcd py
               amount := r.income.getD 0 }
      else none)

/-- Stable insertion into a list sorted by policy year. -/
def insertByPY (e : IncomeEvent) : List IncomeEvent → List IncomeEvent
  | [] => [e]
  | b :: bs => if e.policy_year ≤ b.policy_year then e :: b :: bs else b :: insertByPY e bs

/-- Python `list.sort(key=policy_year)`: stable sort by policy year. -/
def sortByPY (l : List IncomeEvent) : List IncomeEvent :=
  l.foldr insertByPY []

/-- Sum of event amounts. -/
def sumAmounts (evs : List IncomeEvent) : ℚ :=
  (evs.map (fun e => e.amount)).sum

/-- RCD as computed inside `GISHandler.calculate`. -/
def gis_rcd (f : ExtractedFields) (ptd : Date) : Date :=
  (derive_rcd_and_rpu_dates f.bi_generation_date ptd f.mode).1

/-- RPU effective date as computed inside `GISHandler.calculate`. -/
def gis_rpu_date (f : ExtractedFields) (ptd : Date) : Date :=
  (derive_rcd_and_rpu_dates f.bi_generation_date ptd f.mode).2.1

/-- Grace days as computed inside `GISHandler.calculate`. -/
def gis_grace_days (f : ExtractedFields) (ptd : Date) : Nat :=
  (derive_rcd_and_rpu_dates f.bi_generation_date ptd f.mode).2.2

/-- Source `months_paid = max(0, (rpu.year - rcd.year) * 12 + (rpu.month - rcd.month))`. -/
def gis_months_paid (f : ExtractedFields) (ptd : Date) : Nat :=
  ((((gis_rpu_date f ptd).year : ℤ) - ((gis_rcd f ptd).year : ℤ)) * 12 +
    (((gis_rpu_date f ptd).month : ℤ) - ((gis_rcd f ptd).month : ℤ))).toNat

/-- Source `months_payable_total = ppt_years * 12 if ppt_years else 0`. -/
def gis_months_payable_total (f : ExtractedFields) : Nat :=
  if f.ppt_years ≠ 0 then f.ppt_years * 12 else 0

/-- Source RPU factor: ratio of months paid to months payable, clamped to [0, 1]. -/
def gis_R (f : ExtractedFields) (ptd : Date) : ℚ :=
  max 0 (min 1 (if 0 < gis_months_payable_total f then
    (gis_months_paid f ptd : ℚ) / ((gis_months_payable_total f : ℕ) : ℚ) else 0))

/-- The sorted income-event list of `GISHandler.calculate`. -/
def gis_events (f : ExtractedFields) (ptd : Date) : List IncomeEvent :=
  sortByPY (incomeEventsOf f.schedule_rows (gis_rcd f ptd))

/-- Source `It`: total contracted income over the schedule. -/
def gis_It (f : ExtractedFields) (ptd : Date) : ℚ :=
  sumAmounts (gis_events f ptd)

/-- Source `Ia`: income due strictly before the RPU effective date. -/
def gis_Ia (f : ExtractedFields) (ptd : Date) : ℚ :=
  sumAmounts ((gis_events f ptd).filter
    (fun e => decide (Date.lt e.payout_date (gis_rpu_date f ptd))))

/-- Source net reduced-paid-up income payable, with the negative floor. -/
def gis_net (f : ExtractedFields) (ptd : Date) : ℚ :=
  let raw := gis_It f ptd * gis_R f ptd - gis_Ia f ptd * (1 - gis_R f ptd)
  if raw < 0 then 0 else raw

/-- Source `income_due_full`: full-pay income due on or after the RPU date. -/
def gis_income_due_full (f : ExtractedFields) (ptd : Date) : ℚ :=
  sumAmounts ((gis_events f ptd).filter
    (fun e => decide (Date.le (gis_rpu_date f ptd) e.payout_date)))

/-- Source `ComputedOutputs` model, with the `fully_paid` and
`reduced_paid_up` dictionaries flattened into named fields (the display-only
`income_segments` entries of the source are omitted). -/
structure ComputedOutputs where
  rcd : Date
  ptd : Date
  rpu_date : Date
  grace_period_days : Nat
  months_paid : Nat
  months_payable_total : Nat
  rpu_factor : ℚ
  fp_instalment_premium_without_gst : Option ℚ
  fp_total_income : ℚ
  fp_income_items : List IncomeEvent
  fp_maturity : Option ℚ
  fp_death_last_year : Option ℚ
  rp_income_total_full : ℚ
  rp_income_already_paid : ℚ
  rp_income_due_full : ℚ
  rp_income_payable_after_rpu : ℚ
  rp_income_items_remaining_full : List IncomeEvent
  rp_maturity : Option ℚ
  rp_death_scaled : Option ℚ
  notes : List String
deriving DecidableEq, Repr

/-- Source `GISHandler.calculate`. -/
def gis_calculate (f : ExtractedFields) (ptd : Date) : ComputedOutputs :=
  let maturity := last_non_null f.schedule_rows (fun r => r.maturity)
  let last_death := last_non_null f.schedule_rows (fun r => r.death)
  { rcd := gis_rcd f ptd
    ptd := ptd
    rpu_date := gis_rpu_date f ptd
    grace_period_days := gis_grace_days f ptd
    months_paid := gis_months_paid f ptd
    months_payable_total := gis_months_payable_total f
    rpu_factor := gis_R f ptd
    fp_instalment_premium_without_gst := f.annualized_premium_excl_tax
    fp_total_income := gis_It f ptd
    fp_income_items := gis_events f ptd
    fp_maturity := maturity
    fp_death_last_year := last_death
    rp_income_total_full := gis_It f ptd
    rp_income_already_paid := gis_Ia f ptd
    rp_income_due_full := gis_income_due_full f ptd
    rp_income_payable_after_rpu := gis_net f ptd
    rp_income_items_remaining_full := (gis_events f ptd).filter
      (fun e => decide (Date.le (gis_rpu_date f ptd) e.payout_date))
    rp_maturity := maturity.map (fun m => m * gis_R f ptd)
    rp_death_scaled := last_death.map (fun m => m * gis_R f ptd)
    notes :=
      ["Device is logged as " ++ apos ++ "unknown" ++ apos ++ " (internal prototype).",
        "Calendar year = RCD.year + PolicyYear - 1 (as per derived RCD).",
        "Income already paid (Ia) includes payouts with payout_date < RPU date (PTD + grace).",
        "Reduced paid-up income payable uses: (It × R) − (Ia × (1 − R)), where R = Pp/Pt."] }

/-! ### Helper lemmas -/

theorem daysInMonth_le_31 (y m : Nat) : daysInMonth y m ≤ 31 := by
  unfold daysInMonth
  split
  · split <;> omega
  · split <;> omega

theorem shiftToMI_month_ge (d : Date) (tm : Nat) : 1 ≤ (shiftToMI d tm).month := by
  show 1 ≤ tm % 12 + 1
  omega

theorem shiftToMI_month_le (d : Date) (tm : Nat) : (shiftToMI d tm).month ≤ 12 := by
  show tm % 12 + 1 ≤ 12
  omega

theorem shiftToMI_day_le (d : Date) (tm : Nat) : (shiftToMI d tm).day ≤ 31 := by
  show min d.day (daysInMonth (tm / 12) (tm % 12 + 1)) ≤ 31
  exact le_trans (min_le_right _ _) (daysInMonth_le_31 _ _)

theorem monthIndex_shiftToMI (d : Date) (tm : Nat) : monthIndex (shiftToMI d tm) = tm := by
  show (tm / 12) * 12 + (tm % 12 + 1 - 1) = tm
  omega

theorem monthIndex_le_of_key_le {a b : Date} (h : a.key ≤ b.key)
    (ha1 : 1 ≤ a.month) (ha2 : a.month ≤ 12) (ha3 : a.day ≤ 31)
    (hb1 : 1 ≤ b.month) (hb2 : b.month ≤ 12) (hb3 : b.day ≤ 31) :
    monthIndex a ≤ monthIndex b := by
  unfold Date.key at h
  unfold monthIndex
  omega

theorem mode_months_pos (s : String) : 1 ≤ mode_months s := by
  unfold mode_months mode_months_key
  (repeat' split) <;> omega

theorem deriveRcdGo_ge (fuel : Nat) (bi : Date) (k : Nat) :
    ∀ c : Date, Date.le bi c → Date.le bi (deriveRcdGo fuel bi k c) := by
  induction fuel with
  | zero => intro c h; exact h
  | succ n ih =>
    intro c h
    unfold deriveRcdGo
    split
    · next hguard => exact ih _ hguard
    · exact h

theorem deriveRcdGo_exit (bi : Date) (k : Nat) (hk : 1 ≤ k)
    (hbi1 : 1 ≤ bi.month) (hbi2 : bi.month ≤ 12) (hbi3 : bi.day ≤ 31)
    (hbimi : 12 ≤ monthIndex bi) :
    ∀ fuel c, monthIndex c < fuel →
      ¬ Date.le bi (subMonths (deriveRcdGo fuel bi k c) k) := by
  intro fuel
  induction fuel with
  | zero => intro c h; omega
  | succ n ih =>
    intro c hc
    unfold deriveRcdGo
    split
    · next hguard =>
      apply ih
      have hmi : monthIndex (subMonths c k) = monthIndex c - k :=
        monthIndex_shiftToMI _ _
      have hmono : monthIndex bi ≤ monthIndex (subMonths c k) :=
        monthIndex_le_of_key_le hguard hbi1 hbi2 hbi3
          (shiftToMI_month_ge _ _) (shiftToMI_month_le _ _) (shiftToMI_day_le _ _)
      omega
    · next hguard => exact hguard

theorem insertByPY_perm (e : IncomeEvent) (l : List IncomeEvent) :
    (insertByPY e l).Perm (e :: l) := by
  induction l with
  | nil => exact List.Perm.refl _
  | cons b bs ih =>
    unfold insertByPY
    split
    · exact List.Perm.refl _
    · exact List.Perm.trans (List.Perm.cons b ih) (List.Perm.swap e b bs)

theorem sortByPY_perm (l : List IncomeEvent) : (sortByPY l).Perm l := by
  induction l with
  | nil => exact List.Perm.refl _
  | cons a rest ih =>
    exact List.Perm.trans (insertByPY_perm a (sortByPY rest)) (List.Perm.cons a ih)

theorem mem_sortByPY {x : IncomeEvent} {l : List IncomeEvent} :
    x ∈ sortByPY l ↔ x ∈ l :=
  (sortByPY_perm l).mem_iff

/-! ### Claim C2: RCD fixed-point property -/

set_option maxRecDepth 400000 in
/-- C2 (counterexample): for BI date 2030-01-01, PTD 2020-01-01 and mode
Annual, the derived RCD 2021-01-01 lies strictly before the BI date, so the
claimed inequality RCD ≥ BI date fails for this BI date and PTD. -/
theorem rcd_not_ge_bi_for_early_ptd :
    derive_rcd ⟨2030, 1, 1⟩ ⟨2020, 1, 1⟩ "Annual" = ⟨2021, 1, 1⟩ ∧
    Date.lt (derive_rcd ⟨2030, 1, 1⟩ ⟨2020, 1, 1⟩ "Annual") ⟨2030, 1, 1⟩ := by
  constructor
  · decide
  · decide

/-- C2 (amended): for every mode string and all valid dates with the BI date
not after the PTD, the derived RCD is at or after the BI date and stepping it
backward by one more mode interval lands strictly before the BI date. -/
theorem rcd_tightest_fixed_point (mode : String) (bi ptd : Date)
    (hv : ValidDate bi) (hle : Date.le bi ptd) :
    Date.le bi (derive_rcd bi ptd mode) ∧
    Date.lt (subMonths (derive_rcd bi ptd mode) (mode_months mode)) bi := by
  obtain ⟨hy, hm1, hm2, hd1, hd2⟩ := hv
  have hd31 : bi.day ≤ 31 := le_trans hd2 (daysInMonth_le_31 _ _)
  have hmi : 12 ≤ monthIndex bi := by unfold monthIndex; omega
  have hk : 1 ≤ mode_months mode := mode_months_pos _
  have h1 : Date.le bi (deriveRcdGo (monthIndex ptd + 1) bi (mode_months mode) ptd) :=
    deriveRcdGo_ge _ _ _ _ hle
  have h2 : ¬ Date.le bi (subMonths
      (deriveRcdGo (monthIndex ptd + 1) bi (mode_months mode) ptd) (mode_months mode)) :=
    deriveRcdGo_exit bi _ hk hm1 hm2 hd31 hmi _ _ (Nat.lt_succ_self _)
  have hnotlt : ¬ Date.lt (deriveRcdGo (monthIndex ptd + 1) bi (mode_months mode) ptd) bi := by
    unfold Date.le at h1
    unfold Date.lt
    omega
  have hrcd : derive_rcd bi ptd mode =
      deriveRcdGo (monthIndex ptd + 1) bi (mode_months mode) ptd := by
    show (if Date.lt (deriveRcdGo (monthIndex ptd + 1) bi (mode_months mode) ptd) bi then
        addMonths (deriveRcdGo (monthIndex ptd + 1) bi (mode_months mode) ptd)
          (mode_months mode)
      else deriveRcdGo (monthIndex ptd + 1) bi (mode_months mode) ptd) = _
    rw [if_neg hnotlt]
  refine ⟨by rw [hrcd]; exact h1, ?_⟩
  rw [hrcd]
  unfold Date.le at h2
  unfold Date.lt
  omega

set_option maxRecDepth 400000 in
/-- C2 (witness): the amended fixed-point theorem applied at BI date
2023-03-31, PTD 2025-03-31 and mode Annual. -/
theorem rcd_tightest_fixed_point_witness :
    ValidDate ⟨2023, 3, 31⟩ ∧ Date.le ⟨2023, 3, 31⟩ ⟨2025, 3, 31⟩ ∧
    (Date.le ⟨2023, 3, 31⟩ (derive_rcd ⟨2023, 3, 31⟩ ⟨2025, 3, 31⟩ "Annual") ∧
      Date.lt (subMonths (derive_rcd ⟨2023, 3, 31⟩ ⟨2025, 3, 31⟩ "Annual")
        (mode_months "Annual")) ⟨2023, 3, 31⟩) :=
  ⟨by decide, by decide,
    rcd_tightest_fixed_point "Annual" ⟨2023, 3, 31⟩ ⟨2025, 3, 31⟩ (by decide) (by decide)⟩

/-! ### Claim C3: grace period and RPU effective date -/

/-- C3: for every extracted-field record and PTD, the grace period is 15 days
exactly when the normalized mode is Monthly and 30 days otherwise, and the
RPU effective date is PTD plus that many plain calendar days. -/
theorem grace_days_and_rpu_date (f : ExtractedFields) (ptd : Date) :
    (gis_calculate f ptd).grace_period_days =
      (if normalize_mode f.mode = "Monthly" then 15 else 30) ∧
    (gis_calculate f ptd).rpu_date = addDays ptd ((gis_calculate f ptd).grace_period_days) :=
  ⟨rfl, rfl⟩

/-! ### Claim C5: netting formula with zero floor -/

/-- C5: for every extracted-field record and PTD, the reported reduced-paid-up
income payable equals `(It × R) − (Ia × (1 − R))` floored at zero, where `It`
sums all income-event amounts and `Ia` sums those due strictly before the RPU
effective date; in particular the reported value is never negative. -/
theorem net_income_floor (f : ExtractedFields) (ptd : Date) :
    (gis_calculate f ptd).rp_income_payable_after_rpu =
      max 0 (sumAmounts (gis_events f ptd) * (gis_calculate f ptd).rpu_factor -
        sumAmounts ((gis_events f ptd).filter
          (fun e => decide (Date.lt e.payout_date (gis_rpu_date f ptd)))) *
          (1 - (gis_calculate f ptd).rpu_factor)) ∧
    0 ≤ (gis_calculate f ptd).rp_income_payable_after_rpu := by
  constructor
  · show gis_net f ptd = max 0 (gis_It f ptd * gis_R f ptd - gis_Ia f ptd * (1 - gis_R f ptd))
    unfold gis_net
    rcases lt_or_le (gis_It f ptd * gis_R f ptd - gis_Ia f ptd * (1 - gis_R f ptd)) 0 with h | h
    · rw [if_pos h, max_eq_left (le_of_lt h)]
    · rw [if_neg (not_lt.2 h), max_eq_right h]
  · show 0 ≤ gis_net f ptd
    unfold gis_net
    rcases lt_or_le (gis_It f ptd * gis_R f ptd - gis_Ia f ptd * (1 - gis_R f ptd)) 0 with h | h
    · rw [if_pos h]
    · rw [if_neg (not_lt.2 h)]
      exact h

/-! ### Claim C6: RPU factor clamping -/

/-- C6: for every extracted-field record and PTD, the RPU factor equals the
months-paid over months-payable ratio clamped into [0, 1]; it always lies in
[0, 1], and is zero whenever the premium-payment term is zero. -/
theorem rpu_factor_clamped (f : ExtractedFields) (ptd : Date) :
    (gis_calculate f ptd).rpu_factor =
      max 0 (min 1 (((gis_calculate f ptd).months_paid : ℚ) / ((f.ppt_years * 12 : ℕ) : ℚ))) ∧
    0 ≤ (gis_calculate f ptd).rpu_factor ∧ (gis_calculate f ptd).rpu_factor ≤ 1 ∧
    (f.ppt_years = 0 → (gis_calculate f ptd).rpu_factor = 0) := by
  have hform : gis_R f ptd =
      max 0 (min 1 ((gis_months_paid f ptd : ℚ) / ((f.ppt_years * 12 : ℕ) : ℚ))) := by
    unfold gis_R gis_months_payable_total
    rcases Nat.eq_zero_or_pos f.ppt_years with h0 | hpos
    · rw [h0]
      norm_num
    · have hne : f.ppt_years ≠ 0 := Nat.pos_iff_ne_zero.mp hpos
      rw [if_pos hne, if_pos (by omega)]
  refine ⟨hform, ?_, ?_, ?_⟩
  · show 0 ≤ gis_R f ptd
    exact le_max_left _ _
  · show gis_R f ptd ≤ 1
    unfold gis_R
    exact max_le (by norm_num) (min_le_left _ _)
  · intro h0
    show gis_R f ptd = 0
    rw [hform, h0]
    norm_num

/-- C6 (witness): the clamped factor is zero at a record with an unknown
premium-payment term. -/
theorem rpu_factor_clamped_witness :
    ({ product_name := "GIS", bi_generation_date := ⟨2023, 3, 31⟩, mode := "Annual",
        policy_term_years := 20, ppt_years := 0 } : ExtractedFields).ppt_years = 0 ∧
      (gis_calculate
        { product_name := "GIS", bi_generation_date := ⟨2023, 3, 31⟩, mode := "Annual",
          policy_term_years := 20, ppt_years := 0 } ⟨2025, 3, 31⟩).rpu_factor = 0 :=
  ⟨rfl,
    (rpu_factor_clamped
      { product_name := "GIS", bi_generation_date := ⟨2023, 3, 31⟩, mode := "Annual",
        policy_term_years := 20, ppt_years := 0 } ⟨2025, 3, 31⟩).2.2.2 rfl⟩

/-! ### Claim C4: income-event construction -/

/-- Schedule input for the income-event scenario: BI date 2023-03-31, Annual
mode, one payout row at policy year 6. -/
def fieldsC4 : ExtractedFields :=
  { product_name := "GIS"
    bi_generation_date := ⟨2023, 3, 31⟩
    mode := "Annual"
    policy_term_years := 20
    ppt_years := 10
    schedule_rows := [{ policy_year := some 6, income := some 50000 }] }

set_option maxRecDepth 400000 in
/-- C4 (counterexample): at RCD 2023-03-31 the policy-year-6 event is due on
2029-03-31, the RCD anniversary 6 years later, not on the anniversary 5 = 6 − 1
years later as the claim states. -/
theorem income_event_due_date_counterexample :
    (gis_calculate fieldsC4 ⟨2025, 3, 31⟩).rcd = ⟨2023, 3, 31⟩ ∧
    (gis_calculate fieldsC4 ⟨2025, 3, 31⟩).fp_income_items =
      [{ policy_year := 6, calendar_year := 2028, payout_date := ⟨2029, 3, 31⟩,
         amount := 50000 }] ∧
    safe_anniversary ⟨2023, 3, 31⟩ (6 - 1) = ⟨2028, 3, 31⟩ ∧
    ((⟨2029, 3, 31⟩ : Date) ≠ ⟨2028, 3, 31⟩) := by
  refine ⟨by decide, by decide, by decide, by decide⟩

/-- C4 (amended): every constructed income event carries calendar year
`rcd.year + policy_year − 1` and a due date equal to the RCD anniversary
`policy_year` (not `policy_year − 1`) years later, with day-of-month clamping;
and every schedule row with a positive income amount yields such an event. -/
theorem income_event_shape (f : ExtractedFields) (ptd : Date) :
    (∀ e ∈ (gis_calculate f ptd).fp_income_items,
      e.calendar_year = (gis_calculate f ptd).rcd.year + e.policy_year - 1 ∧
      e.payout_date = safe_anniversary ((gis_calculate f ptd).rcd) e.policy_year) ∧
    (∀ r ∈ f.schedule_rows, ∀ p, r.policy_year = some p → 0 < r.income.getD 0 →
      ∃ e, e ∈ (gis_calculate f ptd).fp_income_items ∧ e.policy_year = p ∧
        e.amount = r.income.getD 0) := by
  constructor
  · intro e he
    have he2 : e ∈ incomeEventsOf f.schedule_rows (gis_rcd f ptd) :=
      mem_sortByPY.mp he
    unfold incomeEventsOf at he2
    rw [List.mem_filterMap] at he2
    obtain ⟨r, hr, heq⟩ := he2
    split at heq
    · exact absurd heq (by simp)
    · split at heq
      · cases Option.some.inj heq
        exact ⟨rfl, rfl⟩
      · exact absurd heq (by simp)
  · intro r hr p hpy hpos
    refine ⟨(⟨p, (gis_rcd f ptd).year + p - 1, safe_anniversary (gis_rcd f ptd) p,
      r.income.getD 0⟩ : IncomeEvent), ?_, rfl, rfl⟩
    apply mem_sortByPY.mpr
    unfold incomeEventsOf
    rw [List.mem_filterMap]
    refine ⟨r, hr, ?_⟩
    rw [hpy]
    show (if 0 < r.income.getD 0 then
        some (⟨p, (gis_rcd f ptd).year + p - 1, safe_anniversary (gis_rcd f ptd) p,
          r.income.getD 0⟩ : IncomeEvent)
      else none) = _
    rw [if_pos hpos]

set_option maxRecDepth 400000 in
/-- C4 (witness): the amended event-shape theorem applied to the policy-year-6
row of the concrete scenario. -/
theorem income_event_shape_witness :
    ({ policy_year := some 6, income := some 50000 } : SchedRow) ∈ fieldsC4.schedule_rows ∧
    (0 : ℚ) < ({ policy_year := some 6, income := some 50000 } : SchedRow).income.getD 0 ∧
    (∃ e, e ∈ (gis_calculate fieldsC4 ⟨2025, 3, 31⟩).fp_income_items ∧ e.policy_year = 6 ∧
      e.amount = ({ policy_year := some 6, income := some 50000 } : SchedRow).income.getD 0) :=
  ⟨by decide, by decide,
    (income_event_shape fieldsC4 ⟨2025, 3, 31⟩).2
      { policy_year := some 6, income := some 50000 } (by decide) 6 rfl (by decide)⟩

/-! ### Claim C1: end-to-end scenario -/

/-- Extracted fields of the end-to-end scenario: BI date 2023-03-31, Annual
mode, policy term 20, PPT 10, income 50,000 for policy years 6 through 15. -/
def fieldsC1 : ExtractedFields :=
  { product_name := "Edelweiss Tokio Life- Guaranteed Income STAR"
    bi_generation_date := ⟨2023, 3, 31⟩
    mode := "Annual"
    policy_term_years := 20
    ppt_years := 10
    schedule_rows :=
      [{ policy_year := some 6, income := some 50000 },
       { policy_year := some 7, income := some 50000 },
       { policy_year := some 8, income := some 50000 },
       { policy_year := some 9, income := some 50000 },
       { policy_year := some 10, income := some 50000 },
       { policy_year := some 11, income := some 50000 },
       { policy_year := some 12, income := some 50000 },
       { policy_year := some 13, income := some 50000 },
       { policy_year := some 14, income := some 50000 },
       { policy_year := some 15, income := some 50000 }] }

set_option maxRecDepth 400000 in
/-- C1 (counterexample): in the end-to-end scenario the code computes 25
premium months between RCD 2023-03-31 and the RPU date 2025-04-30 (year/month
difference, day ignored), so the claimed months paid = 24, R = 0.2 and net
payable = 100,000 are not what the code produces. -/
theorem scenario_months_counterexample :
    (gis_calculate fieldsC1 ⟨2025, 3, 31⟩).months_paid = 25 ∧
    ¬ ((gis_calculate fieldsC1 ⟨2025, 3, 31⟩).months_paid = 24 ∧
      (gis_calculate fieldsC1 ⟨2025, 3, 31⟩).rpu_factor = 1 / 5 ∧
      (gis_calculate fieldsC1 ⟨2025, 3, 31⟩).rp_income_payable_after_rpu = 100000) := by
  have h : (gis_calculate fieldsC1 ⟨2025, 3, 31⟩).months_paid = 25 := by decide
  exact ⟨h, fun hc => by rw [hc.1] at h; exact absurd h (by decide)⟩

set_option maxRecDepth 400000 in
/-- Event list of the end-to-end scenario, for reuse in the C1 value proofs. -/
theorem scenario_events :
    gis_events fieldsC1 ⟨2025, 3, 31⟩ =
      [⟨6, 2028, ⟨2029, 3, 31⟩, 50000⟩, ⟨7, 2029, ⟨2030, 3, 31⟩, 50000⟩,
       ⟨8, 2030, ⟨2031, 3, 31⟩, 50000⟩, ⟨9, 2031, ⟨2032, 3, 31⟩, 50000⟩,
       ⟨10, 2032, ⟨2033, 3, 31⟩, 50000⟩, ⟨11, 2033, ⟨2034, 3, 31⟩, 50000⟩,
       ⟨12, 2034, ⟨2035, 3, 31⟩, 50000⟩, ⟨13, 2035, ⟨2036, 3, 31⟩, 50000⟩,
       ⟨14, 2036, ⟨2037, 3, 31⟩, 50000⟩, ⟨15, 2037, ⟨2038, 3, 31⟩, 50000⟩] := by
  decide

set_option maxRecDepth 400000 in
/-- C1 (amended): in the end-to-end scenario the code produces RCD 2023-03-31,
RPU date 2025-04-30 with 30 grace days, 25 premium months paid,
R = 25/120, total income 500,000, already-paid income 0, and net
reduced-paid-up income payable 500,000 × 25/120 = 312500/3 (≈ 104,166.67). -/
theorem scenario_amended :
    (gis_calculate fieldsC1 ⟨2025, 3, 31⟩).rcd = ⟨2023, 3, 31⟩ ∧
    (gis_calculate fieldsC1 ⟨2025, 3, 31⟩).rpu_date = ⟨2025, 4, 30⟩ ∧
    (gis_calculate fieldsC1 ⟨2025, 3, 31⟩).grace_period_days = 30 ∧
    (gis_calculate fieldsC1 ⟨2025, 3, 31⟩).months_paid = 25 ∧
    (gis_calculate fieldsC1 ⟨2025, 3, 31⟩).rpu_factor = 25 / 120 ∧
    (gis_calculate fieldsC1 ⟨2025, 3, 31⟩).fp_total_income = 500000 ∧
    (gis_calculate fieldsC1 ⟨2025, 3, 31⟩).rp_income_already_paid = 0 ∧
    (gis_calculate fieldsC1 ⟨2025, 3, 31⟩).rp_income_payable_after_rpu = 312500 / 3 := by
  have hmonths : gis_months_paid fieldsC1 ⟨2025, 3, 31⟩ = 25 := by decide
  have hmpt : gis_months_payable_total fieldsC1 = 120 := by decide
  have hR : gis_R fieldsC1 ⟨2025, 3, 31⟩ = 25 / 120 := by
    unfold gis_R
    rw [hmonths, hmpt, if_pos (by norm_num)]
    rw [min_eq_right (by norm_num), max_eq_right (by norm_num)]
    norm_num
  have hIt : gis_It fieldsC1 ⟨2025, 3, 31⟩ = 500000 := by
    unfold gis_It
    rw [scenario_events]
    show ([(50000 : ℚ), 50000, 50000, 50000, 50000, 50000, 50000, 50000, 50000, 50000]).sum
      = 500000
    norm_num
  have hIaList : (gis_events fieldsC1 ⟨2025, 3, 31⟩).filter
      (fun e => decide (Date.lt e.payout_date (gis_rpu_date fieldsC1 ⟨2025, 3, 31⟩))) = [] := by
    rw [scenario_events]
    decide
  have hIa : gis_Ia fieldsC1 ⟨2025, 3, 31⟩ = 0 := by
    unfold gis_Ia
    rw [hIaList]
    rfl
  have hnet : gis_net fieldsC1 ⟨2025, 3, 31⟩ = 312500 / 3 := by
    unfold gis_net
    rw [hIt, hIa, hR]
    rw [if_neg (by norm_num)]
    norm_num
  exact ⟨by decide, by decide, by decide, hmonths, hR, hIt, hIa, hnet⟩

/-! ### Claim C7: duplicate policy years in the extracted schedule -/

/-- A schedule table whose two data rows both claim policy year 5 with
different income values (rows 1–2 are blank header-continuation rows, which
the extractor consumes as header merge rows). -/
def tableC7 : TableG :=
  [[some "Policy Year", some "Income Benefit"],
   [none, none],
   [none, none],
   [some "5", some "1000"],
   [some "5", some "2000"]]

/-- Parsed document holding only the duplicate-year table. -/
def parsedC7 : ParsedPDF :=
  { text_by_page := ["page"], tables_by_page := [[tableC7]], page_count := 1 }

/-- C7 (counterexample): both rows claiming policy year 5 survive extraction —
policy years are not unique and the later duplicate is not dropped. -/
theorem schedule_duplicate_rows_counterexample :
    extract_schedule parsedC7 20 =
      [{ policy_year := some 5, income := some 1000 },
       { policy_year := some 5, income := some 2000 }] ∧
    (extract_schedule parsedC7 20).map (fun r => r.policy_year) = [some 5, some 5] ∧
    extract_schedule parsedC7 20 ≠ [{ policy_year := some 5, income := some 1000 }] := by
  refine ⟨by decide, by decide, by decide⟩

/-- C7 (amended): when the source tables contain two rows claiming the same
policy year with different values, both are retained in document order, the
first-encountered row first; no deduplication is performed. -/
theorem schedule_keeps_duplicates_in_order :
    extract_schedule parsedC7 20 =
      [{ policy_year := some 5, income := some 1000 },
       { policy_year := some 5, income := some 2000 }] ∧
    (extract_schedule parsedC7 20).map (fun r => r.income) = [some 1000, some 2000] := by
  refine ⟨by decide, by decide⟩

/-! ### Claim C8: selective table extraction -/

/-- Page texts where only the third page (index 2) carries the schedule marker. -/
def textsC8 : List String :=
  ["", "", "Policy Year schedule", "continued"]

/-- Per-page table material available to the extractor. -/
def tablesC8 : List (List TableG) :=
  [[[[some "a"]]], [[[some "a"]]], [[[some "a"]]], [[[some "a"]]]]

/-- C8 (counterexample): the page after the marker page gets no tables even
though the marker fired earlier — extraction is not sticky once triggered. -/
theorem table_selection_not_sticky :
    markerHit (textsC8.getD 2 "") = true ∧
    tablesC8.getD 3 [] ≠ [] ∧
    (select_tables textsC8 tablesC8).getD 3 [] = [] := by
  refine ⟨by decide, by decide, by decide⟩

/-- C8 (amended): tables are extracted for page indices 0 and 1
unconditionally, and for every later page exactly when that page's own text
contains the schedule marker (case-insensitively); no earlier page
influences the decision. -/
theorem table_selection_per_page (texts : List String) (tablesOf : List (List TableG))
    (idx : Nat) (h : idx < texts.length) :
    (select_tables texts tablesOf)[idx]? =
      some (if idx = 0 ∨ idx = 1 ∨ markerHit (texts.getD idx "") then tablesOf.getD idx []
        else []) := by
  unfold select_tables
  rw [List.getElem?_map, List.getElem?_range h]
  rfl

/-- C8 (witness): the per-page selection rule applied at the marker page of
the concrete document. -/
theorem table_selection_per_page_witness :
    2 < textsC8.length ∧
    (select_tables textsC8 tablesC8)[2]? =
      some (if (2 : Nat) = 0 ∨ (2 : Nat) = 1 ∨ markerHit (textsC8.getD 2 "") then
        tablesC8.getD 2 [] else []) :=
  ⟨by decide, table_selection_per_page textsC8 tablesC8 2 (by decide)⟩

/-! ### Claim C9: determinism of extraction -/

/-- A parsed document whose first page has no recognizable BI date. -/
def parsedC9 : ParsedPDF :=
  { text_by_page := [""], tables_by_page := [], page_count := 1 }

/-- C9 (counterexample): when no BI date can be recognized on page 1, the
extract operation falls back to the current date, so runs at two different
times produce different `ExtractedFields`. -/
theorem extract_differs_across_days_when_bi_missing :
    extract_bi_generation_date "" = none ∧
    gis_extract parsedC9 ⟨2024, 1, 1⟩ ≠ gis_extract parsedC9 ⟨2025, 6, 7⟩ := by
  refine ⟨by decide, by decide⟩

/-- C9 (amended): whenever page 1 yields a BI generation date, the extract
operation is independent of the current date — two runs at any two times
produce identical `ExtractedFields`. -/
theorem extract_deterministic_when_bi_found (parsed : ParsedPDF) (t1 t2 d : Date)
    (h : extract_bi_generation_date (parsed.text_by_page.getD 0 "") = some d) :
    gis_extract parsed t1 = gis_extract parsed t2 := by
  simp only [gis_extract, h, Option.getD_some]

/-- A parsed document carrying a recognizable quote date on page 1. -/
def parsedC9w : ParsedPDF :=
  { text_by_page := ["Quote Date: 31/03/2023"], tables_by_page := [], page_count := 1 }

/-- C9 (witness): determinism of extraction on the concrete document with a
parseable BI date, at two different run dates. -/
theorem extract_deterministic_witness :
    extract_bi_generation_date (parsedC9w.text_by_page.getD 0 "") = some ⟨2023, 3, 31⟩ ∧
    gis_extract parsedC9w ⟨2024, 1, 1⟩ = gis_extract parsedC9w ⟨2025, 6, 7⟩ :=
  ⟨by decide,
    extract_deterministic_when_bi_found parsedC9w ⟨2024, 1, 1⟩ ⟨2025, 6, 7⟩ ⟨2023, 3, 31⟩
      (by decide)⟩

/-! ### Claim C10: sparse schedules surface as nulls, not errors -/

/-- C10: the calculation is total over sparse schedules — rows with no
maturity values yield a null maturity benefit, rows with no death values a
null death benefit, and rows with no income values an empty event list and
zero income totals (an empty schedule satisfies all three vacuously). -/
theorem sparse_schedule_yields_nulls (f : ExtractedFields) (ptd : Date) :
    ((∀ r ∈ f.schedule_rows, r.maturity = none) →
      (gis_calculate f ptd).fp_maturity = none ∧ (gis_calculate f ptd).rp_maturity = none) ∧
    ((∀ r ∈ f.schedule_rows, r.death = none) →
      (gis_calculate f ptd).fp_death_last_year = none ∧
      (gis_calculate f ptd).rp_death_scaled = none) ∧
    ((∀ r ∈ f.schedule_rows, r.income = none) →
      (gis_calculate f ptd).fp_income_items = [] ∧
      (gis_calculate f ptd).fp_total_income = 0 ∧
      (gis_calculate f ptd).rp_income_already_paid = 0 ∧
      (gis_calculate f ptd).rp_income_payable_after_rpu = 0) := by
  refine ⟨?_, ?_, ?_⟩
  · intro h
    have hm : last_non_null f.schedule_rows (fun r => r.maturity) = none := by
      unfold last_non_null
      rw [List.findSome?_eq_none_iff]
      intro x hx
      exact h x (List.mem_reverse.mp hx)
    refine ⟨hm, ?_⟩
    show (last_non_null f.schedule_rows (fun r => r.maturity)).map _ = none
    rw [hm]
    rfl
  · intro h
    have hm : last_non_null f.schedule_rows (fun r => r.death) = none := by
      unfold last_non_null
      rw [List.findSome?_eq_none_iff]
      intro x hx
      exact h x (List.mem_reverse.mp hx)
    refine ⟨hm, ?_⟩
    show (last_non_null f.schedule_rows (fun r => r.death)).map _ = none
    rw [hm]
    rfl
  · intro h
    have hev : incomeEventsOf f.schedule_rows (gis_rcd f ptd) = [] := by
      unfold incomeEventsOf
      rw [List.filterMap_eq_nil_iff]
      intro r hr
      cases hpy : r.policy_year with
      | none => rfl
      | some py => simp [hpy, h r hr]
    have hevs : gis_events f ptd = [] := by
      unfold gis_events
      rw [hev]
      rfl
    have hIt : gis_It f ptd = 0 := by
      unfold gis_It
      rw [hevs]
      rfl
    have hIa : gis_Ia f ptd = 0 := by
      unfold gis_Ia
      rw [hevs]
      rfl
    refine ⟨hevs, hIt, hIa, ?_⟩
    show gis_net f ptd = 0
    unfold gis_net
    rw [hIt, hIa]
    norm_num

/-- C10 (witness): the sparse-schedule theorem applied to a record with an
empty schedule. -/
theorem sparse_schedule_yields_nulls_witness :
    ({ product_name := "GIS", bi_generation_date := ⟨2023, 3, 31⟩, mode := "Annual",
        policy_term_years := 20, ppt_years := 10 } : ExtractedFields).schedule_rows = [] ∧
    ((gis_calculate
        { product_name := "GIS", bi_generation_date := ⟨2023, 3, 31⟩, mode := "Annual",
          policy_term_years := 20, ppt_years := 10 } ⟨2025, 3, 31⟩).fp_maturity = none ∧
      (gis_calculate
        { product_name := "GIS", bi_generation_date := ⟨2023, 3, 31⟩, mode := "Annual",
          policy_term_years := 20, ppt_years := 10 } ⟨2025, 3, 31⟩).rp_maturity = none) ∧
    ((gis_calculate
        { product_name := "GIS", bi_generation_date := ⟨2023, 3, 31⟩, mode := "Annual",
          policy_term_years := 20, ppt_years := 10 } ⟨2025, 3, 31⟩).fp_income_items = [] ∧
      (gis_calculate
        { product_name := "GIS", bi_generation_date := ⟨2023, 3, 31⟩, mode := "Annual",
          policy_term_years := 20, ppt_years := 10 } ⟨2025, 3, 31⟩).fp_total_income = 0 ∧
      (gis_calculate
        { product_name := "GIS", bi_generation_date := ⟨2023, 3, 31⟩, mode := "Annual",
          policy_term_years := 20, ppt_years := 10 } ⟨2025, 3, 31⟩).rp_income_already_paid = 0 ∧
      (gis_calculate
        { product_name := "GIS", bi_generation_date := ⟨2023, 3, 31⟩, mode := "Annual",
          policy_term_years := 20, ppt_years := 10 } ⟨2025, 3, 31⟩).rp_income_payable_after_rpu
        = 0) :=
  ⟨rfl,
    (sparse_schedule_yields_nulls _ ⟨2025, 3, 31⟩).1 (by simp),
    ((sparse_schedule_yields_nulls _ ⟨2025, 3, 31⟩).2.2 (by simp)).1,
    ((sparse_schedule_yields_nulls _ ⟨2025, 3, 31⟩).2.2 (by simp)).2.1,
    ((sparse_schedule_yields_nulls _ ⟨2025, 3, 31⟩).2.2 (by simp)).2.2.1,
    ((sparse_schedule_yields_nulls _ ⟨2025, 3, 31⟩).2.2 (by simp)).2.2.2⟩
